import Mathlib

/- Shallow embedding of the interactive visualization core of the
   video_xt_tool repository: the letterbox coordinate transform, the wheel
   zoom, and the box-drawing gesture of InteractiveImage, the detection-fetch
   effect, the color mapping of colorUtils, the error handling of App, and the
   navigation/autosave effects of Sidebar and App.  Coordinates are modelled
   as rationals: every numeric quantity in the source is an IEEE double, so an
   identity proved here in exact rational arithmetic holds for doubles up to
   floating-point epsilon, and a rational counterexample with a large gap
   refutes the corresponding floating-point claim. -/

/- ----------------------------------------------------------------------
   Coordinate transform (src/src/InteractiveImage.tsx, also mirrored in
   src/unnamed/part_006).
   ---------------------------------------------------------------------- -/

/-- Viewport state of InteractiveImage: the zoom factor and the pan offset
(src/src/InteractiveImage.tsx lines 29-30). -/
structure WheelState where
  zoom : ℚ
  panX : ℚ
  panY : ℚ
  deriving DecidableEq

/-- Letterbox mapping from frame-native coordinates to container display
coordinates: the fields scale_factor, x_offset, y_offset of
src/src/InteractiveImage.tsx lines 104-123. -/
structure Letterbox where
  scale_factor : ℚ
  x_offset : ℚ
  y_offset : ℚ
  deriving DecidableEq

/-- Computation of scale_factor, x_offset and y_offset from the container
rect (cw, ch) and the native frame size (fw, fh), transcribed from
src/src/InteractiveImage.tsx lines 104-123 (identical in part_006 lines
180-199).  When the frame size is not yet loaded (a width or height of 0)
the defaults scale 1 and offsets 0 stand, as in the source guard. -/
def computeLetterbox (cw ch fw fh : ℚ) : Letterbox :=
  if 0 < fw ∧ 0 < fh then
    let imageAspect := fw / fh
    let containerAspect := cw / ch
    let scale := if containerAspect > imageAspect then ch / fh else cw / fw
    { scale_factor := scale
      x_offset := (cw - fw * scale) / 2
      y_offset := (ch - fh * scale) / 2 }
  else
    { scale_factor := 1, x_offset := 0, y_offset := 0 }

/-- Scale of the letterbox as worded by the specification, section 4.1:
scale is ch over fh when the container aspect exceeds the frame aspect and
cw over fw otherwise.  Stated from the specification text for comparison
with computeLetterbox. -/
def specScale (cw ch fw fh : ℚ) : ℚ :=
  if cw / ch > fw / fh then ch / fh else cw / fw

/-- Horizontal centering offset as worded by the specification, section 4.1. -/
def specOffsetX (cw ch fw fh : ℚ) : ℚ :=
  (cw - fw * specScale cw ch fw fh) / 2

/-- Vertical centering offset as worded by the specification, section 4.1. -/
def specOffsetY (cw ch fw fh : ℚ) : ℚ :=
  (ch - fh * specScale cw ch fw fh) / 2

/-- One axis of getCoordinates (src/src/InteractiveImage.tsx lines 125-133):
subtract the pan offset, divide by the zoom, divide by the letterbox scale.
The letterbox offset is not subtracted anywhere in this function. -/
def getCoordinate (pan zoom scale screen : ℚ) : ℚ :=
  ((screen - pan) / zoom) / scale

/-- One axis of the box rendering position inside the transformed layer:
left is bbox_x times scale_factor plus x_offset, top is bbox_y times
scale_factor plus y_offset (detection box render,
src/src/InteractiveImage.tsx lines 228-244). -/
def renderBoxEdge (scale off frameC : ℚ) : ℚ :=
  frameC * scale + off

/-- One axis of the enclosing CSS transform of the overlay layer,
translate by the pan offset then scale by the zoom
(src/src/InteractiveImage.tsx line 211): a layer-local coordinate p lands
on screen at p times zoom plus pan. -/
def applyViewTransform (pan zoom p : ℚ) : ℚ :=
  p * zoom + pan

/-- Clamp of the zoom factor to the interval from 1 to 5, as in
Math.max(1, Math.min(5, zoom * zoomFactor)). -/
def clamp15 (z : ℚ) : ℚ :=
  max 1 (min 5 z)

/-- The wheel handler (src/src/InteractiveImage.tsx lines 68-89, identical
in part_006 lines 143-164).  While a drawing gesture is in progress the
handler returns without touching the viewport.  Otherwise the zoom is
multiplied by 0.9 or 1.1 according to the wheel direction, clamped to the
interval from 1 to 5, and the pan offset is recomputed so that the zoom is
anchored at the mouse position. -/
def handleWheel (isDrawing : Bool) (st : WheelState) (mouseX mouseY : ℚ)
    (deltaYPos : Bool) : WheelState :=
  if isDrawing then st
  else
    let zoomFactor : ℚ := if deltaYPos then 9 / 10 else 11 / 10
    let newZoom := clamp15 (st.zoom * zoomFactor)
    { zoom := newZoom
      panX := mouseX - (mouseX - st.panX) * (newZoom / st.zoom)
      panY := mouseY - (mouseY - st.panY) * (newZoom / st.zoom) }

/- ----------------------------------------------------------------------
   Box drawing gesture (src/src/InteractiveImage.tsx lines 135-179; the
   size check is identical in part_006 lines 235-264).
   ---------------------------------------------------------------------- -/

/-- The in-progress box state currentBox: origin corner and signed width
and height, all in frame coordinates as produced by getCoordinates. -/
structure RawBox where
  bbox_x : ℚ
  bbox_y : ℚ
  bbox_w : ℚ
  bbox_h : ℚ
  deriving DecidableEq

/-- A committed manual box, as in the Box interface of
src/src/InteractiveImage.tsx lines 5-11. -/
structure MBox where
  bbox_x : ℚ
  bbox_y : ℚ
  bbox_w : ℚ
  bbox_h : ℚ
  label : String
  deriving DecidableEq

/-- handleMouseDown: seed the ephemeral box at the frame coordinates of the
pointer with zero size (src/src/InteractiveImage.tsx lines 135-141). -/
def startDrawing (panX panY zoom scale sx sy : ℚ) : RawBox :=
  { bbox_x := getCoordinate panX zoom scale sx
    bbox_y := getCoordinate panY zoom scale sy
    bbox_w := 0
    bbox_h := 0 }

/-- handleMouseMove: the signed width and height become current minus origin
(src/src/InteractiveImage.tsx lines 143-157). -/
def updateDrawing (panX panY zoom scale : ℚ) (cur : RawBox) (ex ey : ℚ) : RawBox :=
  { cur with
    bbox_w := getCoordinate panX zoom scale ex - cur.bbox_x
    bbox_h := getCoordinate panY zoom scale ey - cur.bbox_y }

/-- Normalization of the ephemeral box on mouse-up: flip the origin corner
when a signed extent is negative and take absolute values, attaching the
currently selected label (src/src/InteractiveImage.tsx lines 162-169). -/
def finalizeBox (cur : RawBox) (selectedLabel : String) : MBox :=
  { bbox_x := if cur.bbox_w > 0 then cur.bbox_x else cur.bbox_x + cur.bbox_w
    bbox_y := if cur.bbox_h > 0 then cur.bbox_y else cur.bbox_y + cur.bbox_h
    bbox_w := |cur.bbox_w|
    bbox_h := |cur.bbox_h|
    label := selectedLabel }

/-- handleMouseUp (src/src/InteractiveImage.tsx lines 159-179): the
normalized box is appended to the box list exactly when both of its
frame-coordinate extents strictly exceed 5; otherwise the list is
unchanged.  The comparison is made on the frame-coordinate fields of
finalBox, after the division by zoom and scale_factor performed by
getCoordinates. -/
def handleMouseUp (isDrawing : Bool) (cur : Option RawBox)
    (selectedLabel : String) (boxes : List MBox) : List MBox :=
  match isDrawing, cur with
  | true, some c =>
    let finalBox := finalizeBox c selectedLabel
    if finalBox.bbox_w > 5 ∧ finalBox.bbox_h > 5 then boxes ++ [finalBox] else boxes
  | _, _ => boxes

/-- A full drawing gesture with a frozen viewport: mouse-down at screen
point (sx, sy), mouse-move to (ex, ey), mouse-up. -/
def dragGesture (panX panY zoom scale : ℚ) (selectedLabel : String)
    (boxes : List MBox) (sx sy ex ey : ℚ) : List MBox :=
  handleMouseUp true
    (some (updateDrawing panX panY zoom scale
      (startDrawing panX panY zoom scale sx sy) ex ey))
    selectedLabel boxes

/- ----------------------------------------------------------------------
   Color mapping (src/src/colorUtils.ts).
   ---------------------------------------------------------------------- -/

/-- An RGB color; hex color strings of the source are transcribed to their
decimal channel values. -/
structure RGB where
  r : ℤ
  g : ℤ
  b : ℤ
  deriving DecidableEq

/-- Math.round for the channel values arising in interpolateColor: these
are non-negative, where Math.round coincides with the floor of the value
plus one half. -/
def jsRound (q : ℚ) : ℤ :=
  ⌊q + 1 / 2⌋

/-- interpolateColor (src/src/colorUtils.ts lines 23-41): channel-wise
linear interpolation with rounding. -/
def interpolateColor (c1 c2 : RGB) (factor : ℚ) : RGB :=
  { r := jsRound ((c1.r : ℚ) + factor * ((c2.r : ℚ) - (c1.r : ℚ)))
    g := jsRound ((c1.g : ℚ) + factor * ((c2.g : ℚ) - (c1.g : ℚ)))
    b := jsRound ((c1.b : ℚ) + factor * ((c2.b : ℚ) - (c1.b : ℚ))) }

/-- The viridis control points of src/src/colorUtils.ts lines 7-18, hex
values transcribed to RGB. -/
def viridisStops : List (ℚ × RGB) :=
  [(0, ⟨68, 1, 84⟩), (1/10, ⟨72, 39, 119⟩), (2/10, ⟨63, 74, 138⟩),
   (3/10, ⟨49, 103, 142⟩), (4/10, ⟨38, 131, 143⟩), (5/10, ⟨31, 157, 138⟩),
   (6/10, ⟨108, 206, 90⟩), (7/10, ⟨182, 222, 43⟩), (8/10, ⟨254, 232, 37⟩),
   (1, ⟨240, 249, 33⟩)]

/-- The loop of getViridisColor (src/src/colorUtils.ts lines 51-57): the
first index i whose successor stop position is at least t, defaulting to 0
when no such index exists. -/
def findLowerIndex (t : ℚ) : ℕ :=
  ((List.range (viridisStops.length - 1)).find? fun i =>
    decide (t ≤ (viridisStops.getD (i + 1) (0, ⟨0, 0, 0⟩)).1)).getD 0

/-- getViridisColor (src/src/colorUtils.ts lines 46-69): clamp to the unit
interval, pick the surrounding control points, interpolate. -/
def getViridisColor (normalizedValue : ℚ) : RGB :=
  let t := max 0 (min 1 normalizedValue)
  let lowerIndex := findLowerIndex t
  let upperIndex := min (lowerIndex + 1) (viridisStops.length - 1)
  let lower := viridisStops.getD lowerIndex (0, ⟨0, 0, 0⟩)
  let upper := viridisStops.getD upperIndex (0, ⟨0, 0, 0⟩)
  if lower.1 = upper.1 then lower.2
  else interpolateColor lower.2 upper.2 ((t - lower.1) / (upper.1 - lower.1))

/-- zValueToColor (src/src/colorUtils.ts lines 79-91): the fallback color
when the z value is null or the range is degenerate, otherwise the viridis
color of the normalized value. -/
def zValueToColor (zValue : Option ℚ) (zMin zMax : ℚ) (fallbackColor : RGB) : RGB :=
  match zValue with
  | none => fallbackColor
  | some z =>
    if zMin = zMax then fallbackColor
    else getViridisColor ((z - zMin) / (zMax - zMin))

/-- getZRange (src/src/colorUtils.ts lines 96-107): the pair (0, 1) for an
empty list, otherwise the minimum and maximum of the values.  The null
filter of the source is performed by the caller model, see allZValues. -/
def getZRange (zValues : List ℚ) : ℚ × ℚ :=
  match zValues with
  | [] => (0, 1)
  | z :: rest => (rest.foldl min z, rest.foldl max z)

/-- Default box colors of src/src/colorUtils.ts lines 112-118, hex values
transcribed to RGB; the field annot stands for the annotation entry of the
source and annotPoint for its annotationPoint entry. -/
structure BoxColorDefaults where
  detection : RGB
  annot : RGB
  manual : RGB
  drawing : RGB
  annotPoint : RGB

/-- The concrete defaultBoxColors table of src/src/colorUtils.ts. -/
def defaultBoxColors : BoxColorDefaults :=
  { detection := ⟨34, 197, 94⟩
    annot := ⟨168, 85, 247⟩
    manual := ⟨239, 68, 68⟩
    drawing := ⟨59, 130, 246⟩
    annotPoint := ⟨245, 158, 11⟩ }

/- ----------------------------------------------------------------------
   Detection boxes and their z values (src/unnamed/part_006).
   ---------------------------------------------------------------------- -/

/-- A detection record as far as the color pipeline reads it: its label and
the value the record holds under the currently selected z column, none when
the record lacks that column. -/
structure DetBox where
  label : String
  zval : Option ℚ
  deriving DecidableEq

/-- getBoxZValue (part_006 lines 30-35): the value of the selected z column
when a z column is selected and the record has a non-null value there, and
the number 0 in every other case. -/
def getBoxZValue (zColumn : Option String) (box : DetBox) : ℚ :=
  match zColumn, box.zval with
  | some _, some v => v
  | _, _ => 0

/-- The allZValues computation of part_006 lines 49-51: getBoxZValue is
mapped over the detection boxes.  The null filter that follows in the
source is vacuous because getBoxZValue always returns a number. -/
def allZValues (zColumn : Option String) (detectionBoxes : List DetBox) : List ℚ :=
  detectionBoxes.map (getBoxZValue zColumn)

/-- The border color of a rendered detection box (part_006 lines 330-345):
zValueToColor applied to the z value of the box over the range of
allZValues, with the detection default as fallback. -/
def renderedDetectionColor (zColumn : Option String)
    (detectionBoxes : List DetBox) (box : DetBox) : RGB :=
  let range := getZRange (allZValues zColumn detectionBoxes)
  zValueToColor (some (getBoxZValue zColumn box)) range.1 range.2
    defaultBoxColors.detection

/- ----------------------------------------------------------------------
   Detection fetch and timestamp selection (loadDetectionBoxes,
   src/src/InteractiveImage.tsx lines 43-66, part_006 lines 65-80).
   ---------------------------------------------------------------------- -/

/-- The component state read by the detection race: the currently selected
timestamp and the detection box set. -/
structure DetState where
  currentTimestamp : ℚ
  detectionBoxes : List DetBox
  deriving DecidableEq

/-- Events of the detection reload protocol.  A select event changes the
selected timestamp, which also issues a fetch for it; a resolveFetch event
is the arrival of the response of the fetch issued for the recorded
timestamp, carrying the detection rows (an error or empty response carries
the empty list, as both source branches store an empty set). -/
inductive DetEvent where
  | select (t : ℚ)
  | resolveFetch (issuedFor : ℚ) (payload : List DetBox)
  deriving DecidableEq

/-- One event step.  The resolveFetch case transcribes the continuation of
loadDetectionBoxes: setDetectionBoxes is called with the payload
unconditionally; the timestamp the request was issued for is not compared
against the current selection anywhere in the source. -/
def stepDet (st : DetState) : DetEvent → DetState
  | DetEvent.select t => { st with currentTimestamp := t }
  | DetEvent.resolveFetch _ payload => { st with detectionBoxes := payload }

/-- A run of the detection protocol over an event list. -/
def runDet (st : DetState) (evs : List DetEvent) : DetState :=
  evs.foldl stepDet st

/- ----------------------------------------------------------------------
   Unified editable box state, persistence and removal
   (src/unnamed/part_006).
   ---------------------------------------------------------------------- -/

/-- The three box origins of the Box interface of part_006 lines 6-15.  The
constructor annot stands for the annotation origin of the source. -/
inductive BoxOrigin where
  | detection
  | annot
  | manual
  deriving DecidableEq

/-- A box of the unified state of part_006: geometry in frame coordinates, a
label, an origin tag and an identifier. -/
structure ABox where
  bbox_x : ℚ
  bbox_y : ℚ
  bbox_w : ℚ
  bbox_h : ℚ
  label : String
  type : BoxOrigin
  id : String
  deriving DecidableEq

/-- The filter of saveCurrentAnnotations (part_006 line 86): only boxes of
manual or annotation origin are selected for the save payload. -/
def boxesToSave (currentBoxes : List ABox) : List ABox :=
  currentBoxes.filter fun box =>
    box.type == BoxOrigin.manual || box.type == BoxOrigin.annot

/-- One row of the save payload sent to the persistence collaborator
(part_006 lines 89-96). -/
structure SavedAnnot where
  bbox_x : ℚ
  bbox_y : ℚ
  bbox_w : ℚ
  bbox_h : ℚ
  label : String
  timestamp : ℚ
  deriving DecidableEq

/-- saveCurrentAnnotations (part_006 lines 82-106): no request is issued
when the annotation suffix is empty; otherwise the filtered boxes are
converted to the wire format, the letterbox offset scaled by the inverse of
the scale factor being subtracted from the corner.  The result models the
payload of the issued save request, none standing for no request. -/
def saveCurrentAnnots (annotSuffix : String) (lb : Letterbox) (timestamp : ℚ)
    (currentBoxes : List ABox) : Option (List SavedAnnot) :=
  if annotSuffix = "" then none
  else some ((boxesToSave currentBoxes).map fun box =>
    { bbox_x := box.bbox_x - lb.x_offset / lb.scale_factor
      bbox_y := box.bbox_y - lb.y_offset / lb.scale_factor
      bbox_w := box.bbox_w
      bbox_h := box.bbox_h
      label := box.label
      timestamp := timestamp })

/-- handleRemoveBox (part_006 lines 266-274): drop the box with the given
id from the unified state and re-invoke saveCurrentAnnotations on the new
state.  The pair carries the new state and the save request, if any. -/
def handleRemoveBox (annotSuffix : String) (lb : Letterbox) (timestamp : ℚ)
    (allBoxes : List ABox) (boxId : String) : List ABox × Option (List SavedAnnot) :=
  let newBoxes := allBoxes.filter fun box => box.id != boxId
  (newBoxes, saveCurrentAnnots annotSuffix lb timestamp newBoxes)

/-- A box element of the rendered overlay.  Detection boxes are rendered
from the detectionBoxes state with pointerEvents none and without an
onContextMenu handler (part_006 lines 330-365); annotation and manual boxes
are rendered from the unified state with an onContextMenu handler
(part_006 lines 368-405 and 449-486). -/
inductive RenderedBox where
  | detectionElem (box : ABox)
  | editableElem (box : ABox)
  deriving DecidableEq

/-- The rendered overlay elements carrying box geometry, in document order
(part_006 render body). -/
def renderedBoxes (detectionBoxes allBoxes : List ABox) : List RenderedBox :=
  detectionBoxes.map RenderedBox.detectionElem
    ++ ((allBoxes.filter fun box => box.type == BoxOrigin.annot).map
        RenderedBox.editableElem)
    ++ ((allBoxes.filter fun box => box.type == BoxOrigin.manual).map
        RenderedBox.editableElem)

/-- Dispatch of a right click on a rendered box element.  A detection
element has pointerEvents none and no onContextMenu handler, so the event
reaches no handler: the state is unchanged and no save request is issued.
An editable element invokes handleRemoveBox with its id. -/
def dispatchContextMenu (annotSuffix : String) (lb : Letterbox) (timestamp : ℚ)
    (allBoxes : List ABox) : RenderedBox → List ABox × Option (List SavedAnnot)
  | RenderedBox.detectionElem _ => (allBoxes, none)
  | RenderedBox.editableElem box => handleRemoveBox annotSuffix lb timestamp allBoxes box.id

/- ----------------------------------------------------------------------
   App level error handling (src/src/App.tsx) and local fallbacks
   (src/src/InteractiveImage.tsx lines 43-66, part_001 lines 60-88,
   src/src/App.tsx lines 96-110).
   ---------------------------------------------------------------------- -/

/-- The response shape of the data service client: either data or an error
message (ApiResponse of the api module). -/
inductive ApiResult (α : Type) where
  | ok (data : α)
  | err (msg : String)
  deriving DecidableEq

/-- A sequence of a subset (the Sequence interface of the api module): the
field annotSuffix stands for the annotation_suffix field of the source. -/
structure Sequence where
  videoset : String
  camera : String
  annotSuffix : String
  deriving DecidableEq

/-- The slice of App state the error claims read (src/src/App.tsx lines
11-17). -/
structure AppState where
  loading : Bool
  error : Option String
  subset : Option (List Sequence)
  subsetIndex : ℕ
  deriving DecidableEq

/-- The four top level renderings of App (src/src/App.tsx lines 177-263):
a loading screen, a full error screen with only a reload control, an empty
notice, or the interactive main view. -/
inductive AppView where
  | loadingView
  | errorView (msg : String)
  | emptyView
  | mainView
  deriving DecidableEq

/-- The render decision of App (src/src/App.tsx lines 177-211): loading
first, then the error screen whenever the error state is set, then the
empty notice, else the main view. -/
def renderApp (st : AppState) : AppView :=
  if st.loading then AppView.loadingView
  else
    match st.error with
    | some e => AppView.errorView e
    | none =>
      match st.subset with
      | none => AppView.emptyView
      | some l => if l.isEmpty then AppView.emptyView else AppView.mainView

/-- The state update of loadSubset and of the subset branch of loadSubsets
(src/src/App.tsx lines 29-70 and 122-138): a successful response replaces
the subset, resets the index and clears the error; a failed response stores
the error message.  Both branches end with loading false. -/
def applySubsetResult (st : AppState) (r : ApiResult (List Sequence)) : AppState :=
  match r with
  | ApiResult.ok d => { st with subset := some d, subsetIndex := 0, error := none, loading := false }
  | ApiResult.err e => { st with error := some e, loading := false }

/-- The state update of loadDetectionBoxes on completion
(src/src/InteractiveImage.tsx lines 43-66): data replaces the detection
set, an error or an empty response leaves the empty set. -/
def applyDetectionsResult (r : ApiResult (List DetBox)) : List DetBox :=
  match r with
  | ApiResult.ok d => d
  | ApiResult.err _ => []

/-- The state update of loadColumns in the sidebar (part_001 lines 60-88):
data replaces the column list and clears the inline error text; an error
sets the inline error text and leaves the previous columns. -/
def applyColumnsResult (columns : List String) (r : ApiResult (List String)) :
    List String × Option String :=
  match r with
  | ApiResult.ok d => (d, none)
  | ApiResult.err e => (columns, some e)

/-- Annotation points in the x, y, z array format of the api module. -/
structure AnnotPoints where
  x : List ℚ
  y : List ℚ
  z : List ℚ
  deriving DecidableEq

/-- The state update of loadAnnotations in App (src/src/App.tsx lines
96-110): data is stored, an error stores null. -/
def applyAnnotsResult (r : ApiResult AnnotPoints) : Option AnnotPoints :=
  match r with
  | ApiResult.ok d => some d
  | ApiResult.err _ => none

/- ----------------------------------------------------------------------
   Navigation and autosave (src/unnamed/part_001 Sidebar, src/src/App.tsx
   lines 113-119).  React flushes passive effects of the commit child
   first: the Sidebar effects run before the App effect, and inside the
   Sidebar the loadColumns effect (declared at part_001 lines 86-88) runs
   before the autosave effect (declared at part_001 lines 123-153).
   ---------------------------------------------------------------------- -/

/-- The data service requests a navigation step can issue.  The saveAnnots
request stands for the saveAnnotations call of the source, annotPoints for
the getAnnotations call of App. -/
inductive Request where
  | columnOptions (videoset camera timeseriesName : String)
  | saveAnnots (videoset camera annotSuffix : String)
  | timeseriesOptions (videoset camera : String)
  | annotPoints (videoset camera annotSuffix : String)
  deriving DecidableEq

/-- Recognizer of persistence save requests. -/
def isSaveRequest : Request → Bool
  | Request.saveAnnots _ _ _ => true
  | _ => false

/-- Requests issued by the loadColumns effect of the sidebar on a sequence
change (part_001 lines 60-88): one column options request for the incoming
sequence, fired when its dependencies videoset or camera changed and the
guard of loadColumns passes. -/
def sidebarColumnsRequests (prev cur : Sequence) (timeseriesName : String) : List Request :=
  if (prev.videoset ≠ cur.videoset ∨ prev.camera ≠ cur.camera)
      ∧ cur.videoset ≠ "" ∧ cur.camera ≠ "" ∧ timeseriesName ≠ "" then
    [Request.columnOptions cur.videoset cur.camera timeseriesName]
  else []

/-- Requests issued by the autosave effect of the sidebar (part_001 lines
123-153): when autosave is enabled, the sequence changed in any of its
three fields, and the outgoing annotation suffix is non-empty, exactly one
save request for the outgoing sequence; the response is awaited only to
log, errors are swallowed inside the effect. -/
def autosaveRequests (autosave : Bool) (prev cur : Sequence) : List Request :=
  if autosave = true
      ∧ (prev.videoset ≠ cur.videoset ∨ prev.camera ≠ cur.camera
          ∨ prev.annotSuffix ≠ cur.annotSuffix)
      ∧ prev.annotSuffix ≠ "" then
    [Request.saveAnnots prev.videoset prev.camera prev.annotSuffix]
  else []

/-- Requests issued by the load-on-subset-change effect of App
(src/src/App.tsx lines 113-119): the timeseries options and the annotation
points of the incoming sequence. -/
def appLoadRequests (cur : Sequence) : List Request :=
  [Request.timeseriesOptions cur.videoset cur.camera,
   Request.annotPoints cur.videoset cur.camera cur.annotSuffix]

/-- The ordered request list of one navigation commit from sequence prev to
sequence cur: the sidebar effects in declaration order, then the App
effect. -/
def navigationRequests (autosave : Bool) (prev cur : Sequence)
    (timeseriesName : String) : List Request :=
  sidebarColumnsRequests prev cur timeseriesName
    ++ autosaveRequests autosave prev cur
    ++ appLoadRequests cur

/- ----------------------------------------------------------------------
   Theorems.
   ---------------------------------------------------------------------- -/

/-- The clamped zoom is never zero: it is at least 1. -/
theorem clamp15_ne_zero (x : ℚ) : clamp15 x ≠ 0 :=
  ne_of_gt (lt_of_lt_of_le one_pos (le_max_left 1 (min 5 x)))

/-- C1.  The claim asserts that the screen-to-frame conversion of
getCoordinates followed by the detection-box rendering mapping recovers the
original screen point for every container and frame with positive
dimensions.  It is false: getCoordinates never subtracts the letterbox
offset while the detection render adds it, so the round trip lands at the
original point plus zoom times the offset.  Concretely, for the container
800 by 600 and the frame 1920 by 1080 of the specification, at zoom 1, pan
0, the screen point with vertical coordinate 0 comes back at 75, an error
no floating-point epsilon covers. -/
theorem c1_roundtrip_counterexample :
    applyViewTransform 0 1
        (renderBoxEdge (computeLetterbox 800 600 1920 1080).scale_factor
          (computeLetterbox 800 600 1920 1080).y_offset
          (getCoordinate 0 1 (computeLetterbox 800 600 1920 1080).scale_factor 0))
      ≠ 0 := by
  norm_num [computeLetterbox, applyViewTransform, renderBoxEdge, getCoordinate]

/-- C1 amended.  The round trip through getCoordinates and the detection
render recovers the original screen coordinate plus zoom times the
letterbox offset of that axis; in particular it recovers the original
point exactly on an axis whose letterbox offset is zero. -/
theorem c1_roundtrip_offset (pan zoom scale off s : ℚ)
    (hz : zoom ≠ 0) (hs : scale ≠ 0) :
    applyViewTransform pan zoom (renderBoxEdge scale off (getCoordinate pan zoom scale s))
      = s + off * zoom := by
  unfold applyViewTransform renderBoxEdge getCoordinate
  field_simp
  ring

/-- Witness for c1_roundtrip_offset at pan 2, zoom 1, scale 1, offset 3,
screen coordinate 7. -/
theorem c1_roundtrip_offset_witness :
    (1 : ℚ) ≠ 0
    ∧ applyViewTransform 2 1 (renderBoxEdge 1 3 (getCoordinate 2 1 1 7)) = 7 + 3 * 1 :=
  ⟨by norm_num, c1_roundtrip_offset 2 1 1 3 7 (by norm_num) (by norm_num)⟩

/-- One axis of the zoom anchoring identity, in the exact shape produced by
unfolding handleWheel and getCoordinate. -/
theorem anchor_axis (zoom nz pan mouse scale : ℚ) (hz : zoom ≠ 0) (hn : nz ≠ 0) :
    ((mouse - (mouse - (mouse - pan) * (nz / zoom))) / nz) / scale
      = ((mouse - pan) / zoom) / scale := by
  have h : mouse - (mouse - (mouse - pan) * (nz / zoom)) = (mouse - pan) * (nz / zoom) := by
    ring
  rw [h]
  congr 1
  rw [div_eq_div_iff hn hz, mul_assoc, div_mul_cancel₀ _ hz]

/-- C5.  Wheel zoom is anchored at the pointer: for a wheel event outside a
drawing gesture, with zoom at least 1 (the clamp invariant) and a non-zero
letterbox scale, the frame-space point under the mouse position computed by
getCoordinates is the same before and after the viewport update, on both
axes and for both wheel directions. -/
theorem c5_zoom_anchor (st : WheelState) (mouseX mouseY scale : ℚ) (d : Bool)
    (h1 : 1 ≤ st.zoom) (_hs : scale ≠ 0) :
    getCoordinate (handleWheel false st mouseX mouseY d).panX
        (handleWheel false st mouseX mouseY d).zoom scale mouseX
      = getCoordinate st.panX st.zoom scale mouseX
    ∧ getCoordinate (handleWheel false st mouseX mouseY d).panY
        (handleWheel false st mouseX mouseY d).zoom scale mouseY
      = getCoordinate st.panY st.zoom scale mouseY := by
  have hz : st.zoom ≠ 0 := ne_of_gt (lt_of_lt_of_le one_pos h1)
  cases d <;>
    constructor <;>
      (simp only [handleWheel, Bool.false_eq_true, if_false, getCoordinate]
       exact anchor_axis st.zoom _ _ _ scale hz (clamp15_ne_zero _))

/-- Witness for c5_zoom_anchor at zoom 2, pan (3, 4), mouse (10, 20),
scale 1, wheel up. -/
theorem c5_zoom_anchor_witness :
    (1 : ℚ) ≤ 2
    ∧ (getCoordinate (handleWheel false ⟨2, 3, 4⟩ 10 20 false).panX
          (handleWheel false ⟨2, 3, 4⟩ 10 20 false).zoom 1 10
        = getCoordinate 3 2 1 10
      ∧ getCoordinate (handleWheel false ⟨2, 3, 4⟩ 10 20 false).panY
          (handleWheel false ⟨2, 3, 4⟩ 10 20 false).zoom 1 20
        = getCoordinate 4 2 1 20) :=
  ⟨by norm_num, c5_zoom_anchor ⟨2, 3, 4⟩ 10 20 1 false (by norm_num) (by norm_num)⟩

/-- C6.  The letterbox computed by InteractiveImage agrees with the formula
of the specification for every container and frame with positive
dimensions, and the two concrete instances of the specification hold
exactly: container 800 by 600 with frame 1920 by 1080 gives scale 5 over 12
(about 0.41667), offsets 0 and 75, and container 960 by 540 with frame 1920
by 1080 gives scale one half and offsets 0. -/
theorem c6_letterbox (cw ch fw fh : ℚ) (hfw : 0 < fw) (hfh : 0 < fh) :
    (computeLetterbox cw ch fw fh).scale_factor = specScale cw ch fw fh
    ∧ (computeLetterbox cw ch fw fh).x_offset = specOffsetX cw ch fw fh
    ∧ (computeLetterbox cw ch fw fh).y_offset = specOffsetY cw ch fw fh
    ∧ computeLetterbox 800 600 1920 1080 = ⟨5 / 12, 0, 75⟩
    ∧ computeLetterbox 960 540 1920 1080 = ⟨1 / 2, 0, 0⟩ := by
  refine ⟨?_, ?_, ?_, by norm_num [computeLetterbox, Letterbox.mk.injEq],
    by norm_num [computeLetterbox, Letterbox.mk.injEq]⟩
  · simp [computeLetterbox, specScale, hfw, hfh]
  · simp [computeLetterbox, specOffsetX, specScale, hfw, hfh]
  · simp [computeLetterbox, specOffsetY, specScale, hfw, hfh]

/-- Witness for c6_letterbox at the concrete frame 1920 by 1080 and
container 800 by 600. -/
theorem c6_letterbox_witness :
    (0 : ℚ) < 1920
    ∧ (computeLetterbox 800 600 1920 1080).scale_factor = specScale 800 600 1920 1080 :=
  ⟨by norm_num, (c6_letterbox 800 600 1920 1080 (by norm_num) (by norm_num)).1⟩

/-- C10.  A wheel event arriving while a drawing gesture is in progress
leaves the viewport untouched: the handler returns the zoom factor and the
pan offset unchanged, for every viewport state, mouse position and wheel
direction. -/
theorem c10_wheel_while_drawing (st : WheelState) (mouseX mouseY : ℚ)
    (deltaYPos : Bool) :
    handleWheel true st mouseX mouseY deltaYPos = st := rfl

/-- C2.  The claim asserts that the commit decision measures the drag in
display pixels, so that a drag from (100, 100) to (104, 104) is discarded
for every scale factor and zoom.  It is false: the source compares the
frame-coordinate extents of the normalized box, after the division by zoom
and scale performed by getCoordinates.  With the letterbox scale one half
(container 800 by 600, frame 1600 by 1200), zoom 1 and pan 0, the 4 pixel
drag from (100, 100) to (104, 104) becomes 8 frame units wide and tall and
is committed. -/
theorem c2_min_size_counterexample :
    dragGesture 0 0 1 (computeLetterbox 800 600 1600 1200).scale_factor "object" []
        100 100 104 104 ≠ [] := by
  have hscale : (computeLetterbox 800 600 1600 1200).scale_factor = 1 / 2 := by
    norm_num [computeLetterbox]
  rw [dragGesture, hscale]
  norm_num [handleMouseUp, updateDrawing, startDrawing, finalizeBox, getCoordinate,
    abs_of_nonneg]

/-- C2 amended.  A drawing gesture from screen point (sx, sy) to (ex, ey)
commits a manual box carrying the selected label exactly when both display
extents strictly exceed 5 times zoom times scale, that is when both
frame-coordinate extents strictly exceed 5; otherwise no box is added.  In
particular when zoom times scale equals 1 the drag from (100, 100) to
(104, 104) is discarded and the drag from (100, 100) to (200, 150) is
committed. -/
theorem c2_min_size_frame_units (panX panY zoom scale sx sy ex ey : ℚ)
    (lab : String) (boxes : List MBox) (hz : 0 < zoom) (hs : 0 < scale) :
    (dragGesture panX panY zoom scale lab boxes sx sy ex ey
      = if 5 * (zoom * scale) < |ex - sx| ∧ 5 * (zoom * scale) < |ey - sy|
        then boxes ++ [finalizeBox (updateDrawing panX panY zoom scale
              (startDrawing panX panY zoom scale sx sy) ex ey) lab]
        else boxes)
    ∧ dragGesture 0 0 1 1 "object" [] 100 100 104 104 = []
    ∧ dragGesture 0 0 1 1 "object" [] 100 100 200 150 ≠ [] := by
  have hzs : 0 < zoom * scale := mul_pos hz hs
  have hz0 : zoom ≠ 0 := ne_of_gt hz
  have hs0 : scale ≠ 0 := ne_of_gt hs
  refine ⟨?_, ?_, ?_⟩
  · simp only [dragGesture]
    set c := updateDrawing panX panY zoom scale
      (startDrawing panX panY zoom scale sx sy) ex ey with hc
    have hw : c.bbox_w = (ex - sx) / (zoom * scale) := by
      rw [hc]
      simp only [updateDrawing, startDrawing, getCoordinate]
      field_simp
    have hh : c.bbox_h = (ey - sy) / (zoom * scale) := by
      rw [hc]
      simp only [updateDrawing, startDrawing, getCoordinate]
      field_simp
    simp only [handleMouseUp]
    have h1 : (finalizeBox c lab).bbox_w = |ex - sx| / (zoom * scale) := by
      simp only [finalizeBox]
      rw [hw, abs_div, abs_of_pos hzs]
    have h2 : (finalizeBox c lab).bbox_h = |ey - sy| / (zoom * scale) := by
      simp only [finalizeBox]
      rw [hh, abs_div, abs_of_pos hzs]
    have hcond : ((finalizeBox c lab).bbox_w > 5 ∧ (finalizeBox c lab).bbox_h > 5)
        ↔ (5 * (zoom * scale) < |ex - sx| ∧ 5 * (zoom * scale) < |ey - sy|) := by
      rw [h1, h2, gt_iff_lt, gt_iff_lt, lt_div_iff₀ hzs, lt_div_iff₀ hzs]
    exact if_congr hcond rfl rfl
  · norm_num [dragGesture, handleMouseUp, updateDrawing, startDrawing, finalizeBox,
      getCoordinate, abs_of_nonneg]
  · norm_num [dragGesture, handleMouseUp, updateDrawing, startDrawing, finalizeBox,
      getCoordinate, abs_of_nonneg]

/-- Witness for c2_min_size_frame_units at zoom 1, scale 1: the 4 pixel
drag is discarded. -/
theorem c2_min_size_frame_units_witness :
    (0 : ℚ) < 1 ∧ dragGesture 0 0 1 1 "object" [] 100 100 104 104 = [] :=
  ⟨by norm_num,
    (c2_min_size_frame_units 0 0 1 1 0 0 0 0 "object" [] (by norm_num) (by norm_num)).2.1⟩

/-- C3.  The claim asserts that a response for a stale timestamp never
overwrites state for a newer selection.  It is false: loadDetectionBoxes
stores every arriving payload without comparing the timestamp it was issued
for against the current selection.  Concretely, after selecting timestamp 2
while the fetch for timestamp 1 is still in flight, the response for 2
arriving first and the stale response for 1 arriving last leaves the
detection set holding the data of timestamp 1. -/
theorem c3_staleness_counterexample :
    runDet { currentTimestamp := 1, detectionBoxes := [] }
        [DetEvent.select 2,
         DetEvent.resolveFetch 2 [{ label := "fromT2", zval := none }],
         DetEvent.resolveFetch 1 [{ label := "fromT1", zval := none }]]
      = { currentTimestamp := 2,
          detectionBoxes := [{ label := "fromT1", zval := none }] }
    ∧ [({ label := "fromT1", zval := none } : DetBox)]
        ≠ [{ label := "fromT2", zval := none }] := by
  refine ⟨rfl, ?_⟩
  simp

/-- C3 amended.  The detection set is last-writer-wins: after any event
history, the set equals the payload of the response that arrived last,
whether or not the fetch it answers matches the current selection. -/
theorem c3_last_response_wins (st : DetState) (evs : List DetEvent) (t : ℚ)
    (payload : List DetBox) :
    (runDet st (evs ++ [DetEvent.resolveFetch t payload])).detectionBoxes = payload := by
  simp [runDet, List.foldl_append, stepDet]

/-- C4.  Detection boxes never reach the persistence collaborator: every
box selected by the save filter has manual or annotation origin, never
detection origin.  And a right click on a rendered detection box is a
no-op: the element carries no context-menu handler and has pointer events
disabled, so the box set is unchanged and no save request is issued.  All
save payloads of the component (commit, removal, delete-last) are built by
saveCurrentAnnots from boxesToSave, so the first conjunct covers every
save. -/
theorem c4_detection_immutable (l : List ABox) (b : ABox) (suffix : String)
    (lb : Letterbox) (ts : ℚ) (allBoxes : List ABox) (d : ABox)
    (hb : b ∈ boxesToSave l) :
    b.type ≠ BoxOrigin.detection
    ∧ dispatchContextMenu suffix lb ts allBoxes (RenderedBox.detectionElem d)
        = (allBoxes, none) := by
  refine ⟨?_, rfl⟩
  simp only [boxesToSave, List.mem_filter] at hb
  rcases hb with ⟨-, hp⟩
  intro hdet
  rw [hdet] at hp
  exact absurd hp (by decide)

/-- Witness for c4_detection_immutable on a one-element manual box list and
a concrete detection element. -/
theorem c4_detection_immutable_witness :
    ((⟨0, 0, 1, 1, "m", BoxOrigin.manual, "id1"⟩ : ABox)
        ∈ boxesToSave [⟨0, 0, 1, 1, "m", BoxOrigin.manual, "id1"⟩])
    ∧ ((⟨0, 0, 1, 1, "m", BoxOrigin.manual, "id1"⟩ : ABox).type ≠ BoxOrigin.detection
      ∧ dispatchContextMenu "boxes" ⟨1, 0, 0⟩ 0 []
          (RenderedBox.detectionElem ⟨0, 0, 1, 1, "d", BoxOrigin.detection, "id2"⟩)
        = ([], none)) :=
  ⟨by simp [boxesToSave],
    c4_detection_immutable [⟨0, 0, 1, 1, "m", BoxOrigin.manual, "id1"⟩]
      ⟨0, 0, 1, 1, "m", BoxOrigin.manual, "id1"⟩ "boxes" ⟨1, 0, 0⟩ 0 []
      ⟨0, 0, 1, 1, "d", BoxOrigin.detection, "id2"⟩ (by simp [boxesToSave])⟩

/-- The search loop of getViridisColor started at 0 stops at index 0. -/
theorem findLowerIndex_zero : findLowerIndex 0 = 0 := by
  unfold findLowerIndex
  have hr : List.range (viridisStops.length - 1) = [0, 1, 2, 3, 4, 5, 6, 7, 8] := rfl
  rw [hr, List.find?_cons_of_pos]
  · rfl
  · have h1 : (viridisStops.getD (0 + 1) (0, ⟨0, 0, 0⟩)).1 = 1 / 10 := rfl
    rw [h1, decide_eq_true_eq]
    norm_num

/-- The viridis color of the normalized value 0 is the first control point. -/
theorem viridis_at_zero : getViridisColor 0 = ⟨68, 1, 84⟩ := by
  have ht : max (0 : ℚ) (min 1 0) = 0 := by norm_num
  have hlen : viridisStops.length - 1 = 9 := rfl
  have hmin : min (0 + 1) 9 = 1 := by norm_num
  have h0 : viridisStops.getD 0 (0, ⟨0, 0, 0⟩) = (0, ⟨68, 1, 84⟩) := rfl
  have h1 : viridisStops.getD 1 (0, ⟨0, 0, 0⟩) = (1 / 10, ⟨72, 39, 119⟩) := rfl
  simp only [getViridisColor, ht, findLowerIndex_zero, hlen, hmin, h0, h1]
  rw [if_neg (by norm_num : ¬((0 : ℚ) = 1 / 10))]
  simp only [interpolateColor, jsRound]
  have hfac : ((0 : ℚ) - 0) / (1 / 10 - 0) = 0 := by norm_num
  rw [hfac]
  simp only [RGB.mk.injEq]
  norm_num [Int.floor_eq_iff]

/-- C7.  The claim asserts that a detection box lacking the selected z
column is excluded from the range computation and drawn with the fallback
color.  It is false: getBoxZValue maps a missing value to 0, so the box
enters the range as 0 and is colored as the z value 0.  Concretely, with
boxes of z values 10 and missing, the computed range is 0 to 10, and the
missing-z box is drawn in the first viridis control color, not the
detection fallback. -/
theorem c7_missing_z_counterexample :
    getZRange (allZValues (some "confidence")
        [{ label := "car", zval := some 10 }, { label := "truck", zval := none }])
      = (0, 10)
    ∧ renderedDetectionColor (some "confidence")
        [{ label := "car", zval := some 10 }, { label := "truck", zval := none }]
        { label := "truck", zval := none }
      = ⟨68, 1, 84⟩
    ∧ (⟨68, 1, 84⟩ : RGB) ≠ defaultBoxColors.detection := by
  have hvals : allZValues (some "confidence")
      [{ label := "car", zval := some 10 }, { label := "truck", zval := none }]
      = [10, 0] := by
    simp [allZValues, getBoxZValue]
  have hrange : getZRange ([10, 0] : List ℚ) = (0, 10) := by
    simp only [getZRange, List.foldl]
    norm_num [min_def, max_def]
  refine ⟨by rw [hvals, hrange], ?_, by decide⟩
  rw [renderedDetectionColor, hvals, hrange]
  have hz : getBoxZValue (some "confidence") { label := "truck", zval := none } = 0 := rfl
  rw [hz]
  show zValueToColor (some 0) 0 10 defaultBoxColors.detection = ⟨68, 1, 84⟩
  rw [zValueToColor]
  rw [if_neg (by norm_num : ¬((0 : ℚ) = 10))]
  have hnorm : ((0 : ℚ) - 0) / (10 - 0) = 0 := by norm_num
  rw [hnorm, viridis_at_zero]

/-- C7 amended.  A detection box lacking the selected z column contributes
the value 0 to the range computation (no box is excluded: the z value list
has one entry per box) and is colored as the z value 0; the color function
returns the fallback exactly in the two cases of its guard, a null z value
or a degenerate range. -/
theorem c7_missing_z_amended (zc : String) (dets : List DetBox) (lab : String)
    (zMin zMax z : ℚ) (f : RGB) :
    (allZValues (some zc) dets).length = dets.length
    ∧ getBoxZValue (some zc) { label := lab, zval := none } = 0
    ∧ zValueToColor none zMin zMax f = f
    ∧ zValueToColor (some z) zMin zMin f = f := by
  refine ⟨by simp [allZValues], rfl, rfl, by simp [zValueToColor]⟩

/-- C8.  The claim asserts that every failed data-service request is
handled locally and the UI remains interactive.  It is false for the
subset requests: a failed subset load stores a global error and App then
renders the full error screen, whose only control reloads the page, instead
of the interactive main view. -/
theorem c8_error_counterexample :
    renderApp (applySubsetResult
        { loading := true, error := none, subset := none, subsetIndex := 0 }
        (ApiResult.err "network failure"))
      = AppView.errorView "network failure"
    ∧ AppView.errorView "network failure" ≠ AppView.mainView := by
  exact ⟨rfl, by simp⟩

/-- C8 amended.  Detection, column and annotation fetch failures are
handled locally: a failed detection fetch leaves the empty box list, a
failed column fetch keeps the previous columns and sets only the inline
error text, a failed annotation fetch stores null.  A failed subset
request, however, sets the global error state, and App then renders the
full error screen for every prior state. -/
theorem c8_local_fallbacks_amended (cols : List String) (e : String) (st : AppState) :
    applyDetectionsResult (ApiResult.err e) = []
    ∧ applyColumnsResult cols (ApiResult.err e) = (cols, some e)
    ∧ applyAnnotsResult (ApiResult.err e) = none
    ∧ renderApp (applySubsetResult st (ApiResult.err e)) = AppView.errorView e := by
  refine ⟨rfl, rfl, rfl, ?_⟩
  simp [applySubsetResult, renderApp]

/-- The sidebar column effect issues no save request. -/
theorem countP_save_sidebar (p c : Sequence) (t : String) :
    (sidebarColumnsRequests p c t).countP isSaveRequest = 0 := by
  rw [sidebarColumnsRequests]
  split <;> simp [List.countP_cons, List.countP_nil, isSaveRequest]

/-- The App data load effect issues no save request. -/
theorem countP_save_app (c : Sequence) :
    (appLoadRequests c).countP isSaveRequest = 0 := by
  simp [appLoadRequests, List.countP_cons, List.countP_nil, isSaveRequest]

/-- C9.  With autosave enabled and an outgoing sequence with a non-empty
annotation suffix, a navigation commit issues exactly one save request,
carrying the videoset, camera and suffix of the outgoing sequence, and the
request list places it before the timeseries and annotation requests for
the incoming sequence issued by App (only the column options request of
the sidebar precedes it); no request in the preceding sidebar segment is a
save.  With autosave disabled or an empty outgoing suffix, no save request
is issued at all. -/
theorem c9_autosave_on_navigate (prev cur : Sequence) (t : String)
    (hne : prev ≠ cur) (hsuf : prev.annotSuffix ≠ "") :
    (navigationRequests true prev cur t).countP isSaveRequest = 1
    ∧ navigationRequests true prev cur t
        = sidebarColumnsRequests prev cur t
          ++ Request.saveAnnots prev.videoset prev.camera prev.annotSuffix
            :: appLoadRequests cur
    ∧ (∀ r ∈ sidebarColumnsRequests prev cur t, isSaveRequest r = false)
    ∧ (∀ (a : Bool) (p c : Sequence) (s : String), a = false ∨ p.annotSuffix = "" →
        (navigationRequests a p c s).countP isSaveRequest = 0) := by
  have hdiff : prev.videoset ≠ cur.videoset ∨ prev.camera ≠ cur.camera
      ∨ prev.annotSuffix ≠ cur.annotSuffix := by
    by_contra hcon
    push_neg at hcon
    obtain ⟨h1, h2, h3⟩ := hcon
    refine hne ?_
    cases prev
    cases cur
    simp_all
  have hauto : autosaveRequests true prev cur
      = [Request.saveAnnots prev.videoset prev.camera prev.annotSuffix] := by
    rw [autosaveRequests, if_pos ⟨rfl, hdiff, hsuf⟩]
  refine ⟨?_, ?_, ?_, ?_⟩
  · rw [navigationRequests, hauto, List.countP_append, List.countP_append,
      countP_save_sidebar, countP_save_app]
    simp [List.countP_cons, List.countP_nil, isSaveRequest]
  · rw [navigationRequests, hauto]
    simp
  · intro r hr
    rw [sidebarColumnsRequests] at hr
    revert hr
    split
    · intro hr
      simp only [List.mem_singleton] at hr
      subst hr
      rfl
    · intro hr
      simp at hr
  · intro a p c s h
    have hzero : autosaveRequests a p c = [] := by
      rw [autosaveRequests, if_neg]
      rintro ⟨ha, -, hsu⟩
      rcases h with h | h
      · rw [h] at ha
        exact absurd ha (by decide)
      · exact hsu h
    rw [navigationRequests, hzero, List.countP_append, List.countP_append,
      countP_save_sidebar, countP_save_app]
    simp

/-- Witness for c9_autosave_on_navigate on two concrete distinct
sequences. -/
theorem c9_autosave_on_navigate_witness :
    (Sequence.mk "v1" "c1" "a1" ≠ Sequence.mk "v2" "c2" "a2")
    ∧ (navigationRequests true (Sequence.mk "v1" "c1" "a1")
        (Sequence.mk "v2" "c2" "a2") "det").countP isSaveRequest = 1 :=
  ⟨by decide,
    (c9_autosave_on_navigate (Sequence.mk "v1" "c1" "a1")
      (Sequence.mk "v2" "c2" "a2") "det" (by decide) (by decide)).1⟩
